import Mathlib

/-!
Shallow embedding of `src/BGRate.py` (BGRate CSV export script).

Python floats are modelled as exact rationals.  Every observable value the
claims mention is determined by at most 12 significant decimal digits, where
the rational model and IEEE doubles agree for the magnitudes the script
handles, so the rational semantics is faithful for the claims below.
The run-conditions database and the HTTP service are external collaborators;
they enter the model as the list of rows returned by the query and as the
`fetch : String -> String` function mapping a URL to a response body.
-/

set_option maxRecDepth 4000

attribute [local semireducible] Rat.mul Rat.add Rat.sub Rat.inv Rat.ofScientific

namespace BGRate

/-- Python runtime values that flow through CalcBGRate: ints, floats
(modelled as exact rationals) and strings.  CLI arguments parsed by
argparse without a declared type are stored as strings. -/
inductive PyVal where
  | int : ℤ → PyVal
  | float : ℚ → PyVal
  | str : String → PyVal
deriving DecidableEq

/-- Python exceptions the script can raise while processing one row:
TypeError from percent-formatting a string, ValueError from float() on a
non-numeric literal, AttributeError from calling group(1) on None. -/
inductive PyErr where
  | typeError
  | valueError
  | attributeError
deriving DecidableEq

/-- Whether a runtime value is a Python string. -/
def PyVal.isStr : PyVal → Bool
  | .str _ => true
  | _ => false

instance exceptDecEq {ε α : Type} [DecidableEq ε] [DecidableEq α] : DecidableEq (Except ε α) :=
  fun a b =>
    match a, b with
    | .error e, .error f =>
      if h : e = f then .isTrue (by rw [h]) else .isFalse (fun hh => by cases hh; exact h rfl)
    | .ok x, .ok y =>
      if h : x = y then .isTrue (by rw [h]) else .isFalse (fun hh => by cases hh; exact h rfl)
    | .error _, .ok _ => .isFalse (fun hh => Except.noConfusion hh)
    | .ok _, .error _ => .isFalse (fun hh => Except.noConfusion hh)

/-- Integer power of ten over the rationals, with negative exponents,
modelling Python `10 ** k` (for `k < 0` Python 2 returns a float). -/
def qpow10 (k : ℤ) : ℚ :=
  if 0 ≤ k then ((10 : ℚ) ^ k.toNat) else ((10 : ℚ) ^ (-k).toNat)⁻¹

/-- Fuel-driven base-10 logarithm on naturals (kernel-reducible). -/
def log10F : ℕ → ℕ → ℕ
  | 0, _ => 0
  | f + 1, n => if n < 10 then 0 else log10F f (n / 10) + 1

/-- Base-10 logarithm: number of digits of `n` minus one (0 for `n ≤ 9`). -/
def log10 (n : ℕ) : ℕ := log10F n n

/-- Floor of a rational as an integer. -/
def qfloor (q : ℚ) : ℤ := q.num.fdiv (q.den : ℤ)

/-- Round to the nearest integer, ties to even, as the C printf does when
producing decimal digits. -/
def roundHalfEven (q : ℚ) : ℤ :=
  let f := qfloor q
  let r := q - (f : ℚ)
  if r < 1 / 2 then f
  else if (1 : ℚ) / 2 < r then f + 1
  else if f % 2 = 0 then f else f + 1

/-- Decimal exponent of a positive rational `a`: the unique `X` with
`10 ^ X ≤ a < 10 ^ (X + 1)` (junk on non-positive input). -/
def decExpPos (a : ℚ) : ℤ :=
  if 1 ≤ a then (log10 (qfloor a).toNat : ℤ)
  else
    let n := a.num.natAbs
    let d := a.den
    let k1 := log10 d - log10 n
    if d ≤ n * 10 ^ k1 then -(k1 : ℤ) else -(k1 : ℤ) - 1

/-- First `p` significant decimal digits of a positive rational, correctly
rounded, together with the (possibly carried) decimal exponent. -/
def sigDigits (p : ℕ) (a : ℚ) : ℤ × ℕ :=
  let X := decExpPos a
  let D := (roundHalfEven (a * qpow10 ((p : ℤ) - 1 - X))).toNat
  if 10 ^ p ≤ D then (X + 1, 10 ^ (p - 1)) else (X, D)

/-- Drop trailing zero digits. -/
def stripZeros (ds : List Char) : List Char :=
  (ds.reverse.dropWhile (fun c => c == '0')).reverse

/-- The C/Python `%.pg` conversion on an exact rational: `p` significant
digits, fixed notation when the decimal exponent `X` satisfies
`-4 ≤ X < p`, scientific otherwise, trailing zeros removed, exponent
printed with a sign and at least two digits.  `%g` is `pyFormatG 6`. -/
def pyFormatG (p : ℕ) (q : ℚ) : String :=
  if q = 0 then "0"
  else
    let sgn := if q < 0 then "-" else ""
    let a := if q < 0 then -q else q
    let XD := sigDigits p a
    let X := XD.1
    let ds := (Nat.repr XD.2).data
    if -4 ≤ X ∧ X < (p : ℤ) then
      if 0 ≤ X then
        let ip := ds.take (X.toNat + 1)
        let fp := stripZeros (ds.drop (X.toNat + 1))
        sgn ++ ip.asString ++ (if fp.isEmpty then "" else "." ++ fp.asString)
      else
        let fp := stripZeros ds
        sgn ++ "0." ++ (List.replicate ((-X).toNat - 1) '0').asString ++ fp.asString
    else
      let hd := ds.take 1
      let fp := stripZeros (ds.drop 1)
      let esgn := if X < 0 then "-" else "+"
      let eabs := X.natAbs
      let estr := if eabs < 10 then "0" ++ Nat.repr eabs else Nat.repr eabs
      sgn ++ hd.asString ++ (if fp.isEmpty then "" else "." ++ fp.asString)
        ++ "e" ++ esgn ++ estr

/-- Python 2 `str()` of a float: `%.12g`, with `.0` appended when the
result looks integral. -/
def pyStrFloat (q : ℚ) : String :=
  let s := pyFormatG 12 q
  if s.data.contains '.' || s.data.contains 'e' then s else s ++ ".0"

/-- Numeric value of a string of decimal digits. -/
def digsVal (ds : List Char) : ℕ :=
  ds.foldl (fun a c => 10 * a + (c.toNat - 48)) 0

/-- Python 2 `float()` on a string: optional surrounding whitespace, an
optional sign, a mantissa with at least one digit on one side of an
optional dot, and an optional `e`/`E` exponent.  (The `inf`/`nan` forms
are not representable in the rational model and never arise here.) -/
def pyFloat (cs0 : List Char) : Option ℚ :=
  let cs1 := cs0.dropWhile Char.isWhitespace
  let cs := (cs1.reverse.dropWhile Char.isWhitespace).reverse
  let sgn : Bool × List Char :=
    match cs with
    | '+' :: r => (false, r)
    | '-' :: r => (true, r)
    | r => (false, r)
  let neg := sgn.1
  let r1 := sgn.2
  let ip := r1.takeWhile Char.isDigit
  let r2 := r1.dropWhile Char.isDigit
  let hasDot : Bool := match r2 with | '.' :: _ => true | _ => false
  let fp := match r2 with | '.' :: r => r.takeWhile Char.isDigit | _ => []
  let r3 := match r2 with | '.' :: r => r.dropWhile Char.isDigit | _ => r2
  if ip.isEmpty && (!hasDot || fp.isEmpty) then none
  else
    let mant : ℚ := (digsVal ip : ℚ) + (digsVal fp : ℚ) / (10 : ℚ) ^ fp.length
    let signed := if neg then -mant else mant
    match r3 with
    | [] => some signed
    | c :: r4 =>
      if c == 'e' || c == 'E' then
        let esgn : Bool × List Char :=
          match r4 with
          | '+' :: r => (false, r)
          | '-' :: r => (true, r)
          | r => (false, r)
        let eds := esgn.2.takeWhile Char.isDigit
        let r5 := esgn.2.dropWhile Char.isDigit
        if eds.isEmpty || !r5.isEmpty then none
        else some (signed * qpow10 (if esgn.1 then -(digsVal eds : ℤ) else (digsVal eds : ℤ)))
      else none

/-! ### Model of the two `re.search` patterns used by the script

Both patterns have the shape "literal prefix (or a character-class token
run) followed by a greedy character class capture at the end".  For such
patterns backtracking can never turn a failed anchor position into a
success, so `re.search` is exactly: scan positions left to right, at each
position test the pattern with maximal (greedy) runs, return the first
capture. -/

/-- Match a literal at the head of the input, returning the remainder. -/
def litAt : List Char → List Char → Option (List Char)
  | [], cs => some cs
  | _ :: _, [] => none
  | l :: ls, c :: cs => if c == l then litAt ls cs else none

/-- Character class `[0-9.E+-]` from the flux-sum pattern. -/
def isFluxChar (c : Char) : Bool :=
  c.isDigit || c == '.' || c == 'E' || c == '+' || c == '-'

/-- Attempt of the pattern `lit([0-9.E+-]+)` at one position. -/
def fluxMatchAt (lit cs : List Char) : Option (List Char) :=
  match litAt lit cs with
  | none => none
  | some rest =>
    if (rest.takeWhile isFluxChar).isEmpty then none
    else some (rest.takeWhile isFluxChar)

/-- Model of `re.search(lit + "([0-9.E+-]+)", s).group(1)`. -/
def litFluxSearch (lit : List Char) : List Char → Option (List Char)
  | [] => fluxMatchAt lit []
  | c :: cs =>
    match fluxMatchAt lit (c :: cs) with
    | some cap => some cap
    | none => litFluxSearch lit cs

/-- Character class `[A-Za-z0-9-]` from the radiator pattern. -/
def isTokChar (c : Char) : Bool := c.isAlpha || c.isDigit || c == '-'

/-- Attempt of the pattern `[A-Za-z0-9-]+ ([0-9]+)` at one position: a
maximal nonempty token run, a space, then a nonempty digit run (the
capture).  Shortening the greedy token run can never expose the required
space, so no backtracking case is needed. -/
def radMatchAt (cs : List Char) : Option (List Char) :=
  if (cs.takeWhile isTokChar).isEmpty then none
  else
    match cs.drop (cs.takeWhile isTokChar).length with
    | ' ' :: rest =>
      if (rest.takeWhile Char.isDigit).isEmpty then none
      else some (rest.takeWhile Char.isDigit)
    | _ => none

/-- Model of `re.search("[A-Za-z0-9-]+ ([0-9]+)", s).group(1)`. -/
def radSearch : List Char → Option (List Char)
  | [] => none
  | c :: cs =>
    match radMatchAt (c :: cs) with
    | some ds => some ds
    | none => radSearch cs

/-! ### Data model -/

/-- One row returned by `BGRate_RCDB_values`: `get_values(valueList, True)`
prepends the run number to the six conditions
`event_count, beam_on_current, beam_energy, coherent_peak,
collimator_diameter, radiator_type` (the last two are strings in the
RCDB schema, the others numbers). -/
structure Row where
  runNumber : ℤ
  eventCount : ℤ
  beamCurrent : ℚ
  beamEnergy : ℚ
  coherentPeak : ℚ
  collimDiameter : String
  radiatorType : String
deriving DecidableEq

/-- All eleven CLI physics parameters.  argparse stores whatever arrives
on the command line as a Python string and falls back to the numeric
literal defaults, so the fields are dynamic `PyVal`s. -/
structure Config where
  beamEmittance : PyVal
  photonNbins : PyVal
  photonEmax : PyVal
  photonEmin : PyVal
  collimDistance : PyVal
  peakElow : PyVal
  peakEhigh : PyVal
  backElow : PyVal
  backEhigh : PyVal
  endpElow : PyVal
  endpEhigh : PyVal
deriving DecidableEq

/-- True when no configuration field is a string. -/
def Config.allNumeric (c : Config) : Bool :=
  !c.beamEmittance.isStr && !c.photonNbins.isStr && !c.photonEmax.isStr
    && !c.photonEmin.isStr && !c.collimDistance.isStr && !c.peakElow.isStr
    && !c.peakEhigh.isStr && !c.backElow.isStr && !c.backEhigh.isStr
    && !c.endpElow.isStr && !c.endpEhigh.isStr

/-- Python percent-formatting `%g` of a value: formats ints and floats, raises TypeError on a
string. -/
def fmtG : PyVal → Except PyErr String
  | .int n => .ok (pyFormatG 6 (n : ℚ))
  | .float q => .ok (pyFormatG 6 q)
  | .str _ => .error .typeError

/-- Python percent-formatting `%i` of a value: ints print in decimal, floats truncate toward
zero, strings raise TypeError. -/
def fmtI : PyVal → Except PyErr String
  | .int n => .ok (toString n)
  | .float q => .ok (toString (q.num.tdiv (q.den : ℤ)))
  | .str _ => .error .typeError

/-- Total variant of `%g` used to state results (junk on strings). -/
def gRender : PyVal → String
  | .int n => pyFormatG 6 (n : ℚ)
  | .float q => pyFormatG 6 q
  | .str _ => ""

/-- Total variant of `%i` used to state results (junk on strings). -/
def iRender : PyVal → String
  | .int n => toString n
  | .float q => toString (q.num.tdiv (q.den : ℤ))
  | .str _ => ""

/-- The eleven argparse flags (None when absent from the command line). -/
structure Args where
  beamEmittance : Option String
  photonNbins : Option String
  photonEmax : Option String
  photonEmin : Option String
  collimDistance : Option String
  peakElow : Option String
  peakEhigh : Option String
  backElow : Option String
  backEhigh : Option String
  endpElow : Option String
  endpEhigh : Option String
deriving DecidableEq

/-- argparse `action=store` without a declared type: a supplied value
is kept as the raw string, otherwise the default object is used. -/
def storeArg (supplied : Option String) (default : PyVal) : PyVal :=
  match supplied with
  | some s => .str s
  | none => default

/-- The configuration produced by argparse: defaults are the numeric
literals of the `add_argument` calls (10e-09, 2000, 12, 3, 76, 8.4, 9,
0.1, 3, 10, 11.7). -/
def cfgOfArgs (a : Args) : Config where
  beamEmittance := storeArg a.beamEmittance (.float (1 / 100000000))
  photonNbins := storeArg a.photonNbins (.int 2000)
  photonEmax := storeArg a.photonEmax (.int 12)
  photonEmin := storeArg a.photonEmin (.int 3)
  collimDistance := storeArg a.collimDistance (.int 76)
  peakElow := storeArg a.peakElow (.float (42 / 5))
  peakEhigh := storeArg a.peakEhigh (.int 9)
  backElow := storeArg a.backElow (.float (1 / 10))
  backEhigh := storeArg a.backEhigh (.int 3)
  endpElow := storeArg a.endpElow (.int 10)
  endpEhigh := storeArg a.endpEhigh (.float (117 / 10))

/-- The command line with no physics flag supplied. -/
def noArgs : Args := ⟨none, none, none, none, none, none, none, none, none, none, none⟩

/-- The default configuration. -/
def defaultConfig : Config := cfgOfArgs noArgs

/-! ### CalcBGRate -/

/-- Characters Python strips for `rstrip("mm hole")`: the character SET
of the argument, not the suffix as a unit. -/
def stripSet : List Char := ['m', ' ', 'h', 'o', 'l', 'e']

/-- Membership in the rstrip character set. -/
def inStrip (c : Char) : Bool := stripSet.contains c

/-- Remove the maximal trailing run of characters from `stripSet`,
as Python `s.rstrip("mm hole")` does. -/
def rstripChars (cs : List Char) : List Char :=
  (cs.reverse.dropWhile inStrip).reverse

/-- Line 89: `cd = float(table[5].rstrip("mm hole"))*10**(-3)`.
ValueError when the remainder is not a float literal. -/
def cdValue (s : String) : Except PyErr ℚ :=
  match pyFloat (rstripChars s.data) with
  | none => .error .valueError
  | some q => .ok (q * qpow10 (-3))

/-- Line 91: `rt = float(search("[A-Za-z0-9-]+ ([0-9]+)", table[6]).group(1))*10**(-6)`.
AttributeError when the pattern does not match (group of None); the
capture is all digits so the inner float() always succeeds. -/
def rtValue (s : String) : Except PyErr ℚ :=
  match radSearch s.data with
  | none => .error .attributeError
  | some ds => .ok ((digsVal ds : ℚ) * qpow10 (-6))

/-- The fixed service endpoint. -/
def webAddr : String := "http://zeus.phys.uconn.edu/halld/cobrems/ratetool.cgi"

/-- The fixed trailing directive parameter. -/
def finalStr : String := "&run=plot+collimated+beam+rate+spectrum"

/-- Line 84: beam current converted by `10**(-3)` and `%g`-formatted. -/
def beamCurrentStr (row : Row) : String :=
  "&beamCurrent=" ++ pyFormatG 6 (row.beamCurrent * qpow10 (-3))

/-- Line 86: beam energy converted by `10**(-3)` and `%g`-formatted. -/
def beamEnergyStr (row : Row) : String :=
  "&beamEnergy=" ++ pyFormatG 6 (row.beamEnergy * qpow10 (-3))

/-- Line 88: coherent peak converted by `10**(-3)` and `%g`-formatted. -/
def photonEpeakStr (row : Row) : String :=
  "&photonEpeak=" ++ pyFormatG 6 (row.coherentPeak * qpow10 (-3))

/-- Lines 70-96: build the query string.  The eleven configuration
parameters are formatted first (lines 70-80, in source order, so a
string-valued flag raises TypeError before any row field is touched),
then the collimator diameter (line 89) and the radiator thickness
(line 91) are parsed, and the `conditions` string of line 96 is
assembled with its fixed parameter names and order. -/
def conditionsStr (cfg : Config) (row : Row) : Except PyErr String :=
  match fmtG cfg.beamEmittance with
  | .error e => .error e
  | .ok bEmit =>
  match fmtI cfg.photonNbins with
  | .error e => .error e
  | .ok nb =>
  match fmtG cfg.photonEmax with
  | .error e => .error e
  | .ok pEmax =>
  match fmtG cfg.photonEmin with
  | .error e => .error e
  | .ok pEmin =>
  match fmtG cfg.collimDistance with
  | .error e => .error e
  | .ok cDist =>
  match fmtG cfg.peakElow with
  | .error e => .error e
  | .ok pkLo =>
  match fmtG cfg.peakEhigh with
  | .error e => .error e
  | .ok pkHi =>
  match fmtG cfg.backElow with
  | .error e => .error e
  | .ok bkLo =>
  match fmtG cfg.backEhigh with
  | .error e => .error e
  | .ok bkHi =>
  match fmtG cfg.endpElow with
  | .error e => .error e
  | .ok epLo =>
  match fmtG cfg.endpEhigh with
  | .error e => .error e
  | .ok epHi =>
  match cdValue row.collimDiameter with
  | .error e => .error e
  | .ok cd =>
  match rtValue row.radiatorType with
  | .error e => .error e
  | .ok rt =>
    .ok ("?" ++ beamEnergyStr row ++ beamCurrentStr row
      ++ "&beamEmittance=" ++ bEmit
      ++ "&radThickness=" ++ pyFormatG 6 rt
      ++ photonEpeakStr row
      ++ "&photonNbins=" ++ nb
      ++ "&photonEmax=" ++ pEmax
      ++ "&photonEmin=" ++ pEmin
      ++ "&collimDistance=" ++ cDist
      ++ "&collimDiam=" ++ pyFormatG 6 cd
      ++ "&peakElow=" ++ pkLo
      ++ "&peakEhigh=" ++ pkHi
      ++ "&backElow=" ++ bkLo
      ++ "&backEhigh=" ++ bkHi
      ++ "&endpElow=" ++ epLo
      ++ "&endpEhigh=" ++ epHi
      ++ finalStr)

/-- The marker literal of line 99. -/
def markerStr : String := "<tr><td><b> Endpoint tagged flux sum is "

/-- Lines 99-101: scan the page for the marker pattern
`<tr><td><b> Endpoint tagged flux sum is ([0-9.E+-]+)`, float() the
capture and multiply by `10**(-9)`. -/
def fluxValue (page : String) : Except PyErr ℚ :=
  match litFluxSearch markerStr.data page.data with
  | none => .error .attributeError
  | some cap =>
    match pyFloat cap with
    | none => .error .valueError
    | some v => .ok (v * qpow10 (-9))

/-- The function `CalcBGRate(table, ...)` of lines 69-101, with the
HTTP GET `urlopen(webAddr+conditions).read()` supplied as `fetch`. -/
def CalcBGRate (cfg : Config) (fetch : String → String) (row : Row) : Except PyErr ℚ :=
  match conditionsStr cfg row with
  | .error e => .error e
  | .ok conds => fluxValue (fetch (webAddr ++ conds))

/-! ### Main run loop and CSV writer (lines 105-116) -/

/-- The header line written at line 110. -/
def headerLine : String :=
  "run_number,event_count,beam_on_current,beam_energy,coherent_peak,collimator_diameter,radiator_type,BGRate\n"

/-- `str(val)` for the seven tuple positions of one run, in tuple order. -/
def rowFields (r : Row) : List String :=
  [toString r.runNumber, toString r.eventCount, pyStrFloat r.beamCurrent,
    pyStrFloat r.beamEnergy, pyStrFloat r.coherentPeak, r.collimDiameter, r.radiatorType]

/-- Lines 113-115: `runToWrite += str(val) + comma` for every value. -/
def joinFields : List String → String
  | [] => ""
  | s :: rest => s ++ "," ++ joinFields rest

/-- The text of one data line before the newline:
all seven fields each followed by a comma, then `"%g" % BGRate`. -/
def rowBody (r : Row) (rate : ℚ) : String :=
  joinFields (rowFields r) ++ pyFormatG 6 rate

/-- Line 116: one written data line, newline-terminated. -/
def rowLine (r : Row) (rate : ℚ) : String := rowBody r rate ++ "\n"

/-- The loop body of lines 111-116: process rows in order, stopping at
the first row whose CalcBGRate raises; returns the text written after
the header together with the propagated exception, if any. -/
def runLoop (cfg : Config) (fetch : String → String) : List Row → String × Option PyErr
  | [] => ("", none)
  | r :: rs =>
    match CalcBGRate cfg fetch r with
    | .error e => ("", some e)
    | .ok rate =>
      let p := runLoop cfg fetch rs
      (rowLine r rate ++ p.1, p.2)

/-- The whole `with open(...) as f` block: header first, then the loop.
The first component is the file content produced, the second the
uncaught exception terminating the process, if any. -/
def runProgram (cfg : Config) (fetch : String → String) (rows : List Row) :
    String × Option PyErr :=
  let p := runLoop cfg fetch rows
  (headerLine ++ p.1, p.2)

/-- Line 108: `fileName = "BGRateRCDBValue_" + minRun + "-" + maxRun + ".csv"`. -/
def fileName (minRun maxRun : String) : String :=
  "BGRateRCDBValue_" ++ minRun ++ "-" ++ maxRun ++ ".csv"

/-- Line 109: `open(fileName, mode w)` truncates whatever the file held. -/
def openTruncate (_prior : String) : String := ""

/-- The file content after a run of the program, as a function of the
content the file had before. -/
def writtenContent (prior : String) (cfg : Config) (fetch : String → String)
    (rows : List Row) : String :=
  openTruncate prior ++ (runProgram cfg fetch rows).1

/-- Sample row used as the concrete instance in several theorems. -/
def row1 : Row :=
  { runNumber := 30274, eventCount := 5000000, beamCurrent := 100,
    beamEnergy := 11000, coherentPeak := 8800,
    collimDiameter := "5 mm hole", radiatorType := "Be 750" }

/-- A response body carrying the full marker. -/
def goodBody : String := "<tr><td><b> Endpoint tagged flux sum is 1.23E+05</b></td></tr>"

/-- Whether the first character of a list satisfies `p` (false on nil). -/
def headIs (p : Char → Bool) : List Char → Bool
  | [] => false
  | c :: _ => p c

/-! ### Explicit form of the query string -/

/-- The `conditions` string of line 96 with every parameter spelled out:
base `?`, sixteen `&name=value` parameters in source order, and the
fixed directive suffix.  `photonNbins` is the one parameter the script
formats with `%i`; everything else uses `%g`. -/
def urlQuery (cfg : Config) (row : Row) (cd rt : ℚ) : String :=
  "?" ++ beamEnergyStr row ++ beamCurrentStr row
    ++ "&beamEmittance=" ++ gRender cfg.beamEmittance
    ++ "&radThickness=" ++ pyFormatG 6 rt
    ++ photonEpeakStr row
    ++ "&photonNbins=" ++ iRender cfg.photonNbins
    ++ "&photonEmax=" ++ gRender cfg.photonEmax
    ++ "&photonEmin=" ++ gRender cfg.photonEmin
    ++ "&collimDistance=" ++ gRender cfg.collimDistance
    ++ "&collimDiam=" ++ pyFormatG 6 cd
    ++ "&peakElow=" ++ gRender cfg.peakElow
    ++ "&peakEhigh=" ++ gRender cfg.peakEhigh
    ++ "&backElow=" ++ gRender cfg.backElow
    ++ "&backEhigh=" ++ gRender cfg.backEhigh
    ++ "&endpElow=" ++ gRender cfg.endpElow
    ++ "&endpEhigh=" ++ gRender cfg.endpEhigh
    ++ finalStr

/-- Following the words of the spec for C2: the same serialization, but
with every numeric value - `photonNbins` included - formatted
`%g`-style. -/
def conditionsSpecG (cfg : Config) (row : Row) : Except PyErr String :=
  match fmtG cfg.beamEmittance with
  | .error e => .error e
  | .ok bEmit =>
  match fmtG cfg.photonNbins with
  | .error e => .error e
  | .ok nb =>
  match fmtG cfg.photonEmax with
  | .error e => .error e
  | .ok pEmax =>
  match fmtG cfg.photonEmin with
  | .error e => .error e
  | .ok pEmin =>
  match fmtG cfg.collimDistance with
  | .error e => .error e
  | .ok cDist =>
  match fmtG cfg.peakElow with
  | .error e => .error e
  | .ok pkLo =>
  match fmtG cfg.peakEhigh with
  | .error e => .error e
  | .ok pkHi =>
  match fmtG cfg.backElow with
  | .error e => .error e
  | .ok bkLo =>
  match fmtG cfg.backEhigh with
  | .error e => .error e
  | .ok bkHi =>
  match fmtG cfg.endpElow with
  | .error e => .error e
  | .ok epLo =>
  match fmtG cfg.endpEhigh with
  | .error e => .error e
  | .ok epHi =>
  match cdValue row.collimDiameter with
  | .error e => .error e
  | .ok cd =>
  match rtValue row.radiatorType with
  | .error e => .error e
  | .ok rt =>
    .ok ("?" ++ beamEnergyStr row ++ beamCurrentStr row
      ++ "&beamEmittance=" ++ bEmit
      ++ "&radThickness=" ++ pyFormatG 6 rt
      ++ photonEpeakStr row
      ++ "&photonNbins=" ++ nb
      ++ "&photonEmax=" ++ pEmax
      ++ "&photonEmin=" ++ pEmin
      ++ "&collimDistance=" ++ cDist
      ++ "&collimDiam=" ++ pyFormatG 6 cd
      ++ "&peakElow=" ++ pkLo
      ++ "&peakEhigh=" ++ pkHi
      ++ "&backElow=" ++ bkLo
      ++ "&backEhigh=" ++ bkHi
      ++ "&endpElow=" ++ epLo
      ++ "&endpEhigh=" ++ epHi
      ++ finalStr)

/-- Following the words of the spec for C1: whether the body contains
the bare text "Endpoint tagged flux sum is" followed by characters of
the float class that parse as a float. -/
def specLooseFlux (body : String) : Bool :=
  match litFluxSearch "Endpoint tagged flux sum is ".data body.data with
  | some cap => (pyFloat cap).isSome
  | none => false

/-- Following the words of the spec for C3: whether the collimator
string carries the `" mm hole"` suffix. -/
def specHasMmHoleSuffix (s : String) : Bool := " mm hole".data.isSuffixOf s.data

/-- The data lines of a list of rows whose rates are given by `rateOf`. -/
def linesOf (rateOf : Row → ℚ) : List Row → String
  | [] => ""
  | r :: rs => rowLine r (rateOf r) ++ linesOf rateOf rs

/-! ### CSV shape -/

/-- Split a character list at commas, the way a CSV consumer reads the
fields of one line. -/
def splitComma : List Char → List (List Char)
  | [] => [[]]
  | c :: cs =>
    match splitComma cs with
    | [] => [[]]
    | f :: rest => if c = ',' then [] :: f :: rest else (c :: f) :: rest

/-! ### Generic scanning lemmas -/

theorem takeWhile_append_eq (p : Char → Bool) (xs ys : List Char)
    (h1 : ∀ c ∈ xs, p c = true) (h2 : headIs p ys = false) :
    (xs ++ ys).takeWhile p = xs := by
  induction xs with
  | nil =>
    cases ys with
    | nil => rfl
    | cons y t => simp only [headIs] at h2; simp [List.takeWhile, h2]
  | cons x t ih =>
    have hx : p x = true := h1 x (by simp)
    simp only [List.cons_append, List.takeWhile, hx]
    exact congrArg (List.cons x) (ih (fun c hc => h1 c (by simp [hc])))

theorem dropWhile_append_eq (p : Char → Bool) (xs ys : List Char)
    (h1 : ∀ c ∈ xs, p c = true) (h2 : headIs p ys = false) :
    (xs ++ ys).dropWhile p = ys := by
  induction xs with
  | nil =>
    cases ys with
    | nil => rfl
    | cons y t => simp only [headIs] at h2; simp [List.dropWhile, h2]
  | cons x t ih =>
    have hx : p x = true := h1 x (by simp)
    simp only [List.cons_append, List.dropWhile, hx]
    exact ih (fun c hc => h1 c (by simp [hc]))

theorem drop_len_append (xs ys : List Char) : (xs ++ ys).drop xs.length = ys := by
  induction xs with
  | nil => rfl
  | cons x t ih => simp [ih]

/-! ### Helper lemmas about the formatting dispatchers -/

theorem fmtG_of_not_str (v : PyVal) (h : v.isStr = false) : fmtG v = .ok (gRender v) := by
  cases v with
  | int n => rfl
  | float q => rfl
  | str t => simp [PyVal.isStr] at h

theorem fmtI_of_not_str (v : PyVal) (h : v.isStr = false) : fmtI v = .ok (iRender v) := by
  cases v with
  | int n => rfl
  | float q => rfl
  | str t => simp [PyVal.isStr] at h

theorem fmtG_of_str (v : PyVal) (h : v.isStr = true) : fmtG v = .error .typeError := by
  cases v with
  | int n => simp [PyVal.isStr] at h
  | float q => simp [PyVal.isStr] at h
  | str t => rfl

theorem fmtI_of_str (v : PyVal) (h : v.isStr = true) : fmtI v = .error .typeError := by
  cases v with
  | int n => simp [PyVal.isStr] at h
  | float q => simp [PyVal.isStr] at h
  | str t => rfl

/-! ### Lemmas about the rstrip and the radiator search -/

theorem rstrip_strip_suffix (pre : List Char) (c : Char) (hc : inStrip c = false) :
    rstripChars (pre ++ c :: " mm hole".data) = pre ++ [c] := by
  unfold rstripChars
  have hd : (pre ++ c :: " mm hole".data).reverse
      = ['e', 'l', 'o', 'h', ' ', 'm', 'm', ' '] ++ (c :: pre.reverse) := by
    have : (" mm hole".data).reverse = ['e', 'l', 'o', 'h', ' ', 'm', 'm', ' '] := by decide
    simp [List.reverse_append, this]
  rw [hd, dropWhile_append_eq inStrip _ _ (by decide) (by simp [headIs, hc])]
  simp

theorem radSearch_head (tok ds rest : List Char) (h1 : tok ≠ [])
    (h2 : ∀ c ∈ tok, isTokChar c = true) (h3 : ds ≠ [])
    (h4 : ∀ c ∈ ds, c.isDigit = true) (h5 : headIs Char.isDigit rest = false) :
    radSearch (tok ++ ' ' :: (ds ++ rest)) = some ds := by
  obtain ⟨t, ts, rfl⟩ : ∃ t ts, tok = t :: ts := by
    cases tok with
    | nil => exact absurd rfl h1
    | cons a b => exact ⟨a, b, rfl⟩
  have hAt : radMatchAt ((t :: ts) ++ ' ' :: (ds ++ rest)) = some ds := by
    have htw : List.takeWhile isTokChar ((t :: ts) ++ ' ' :: (ds ++ rest)) = t :: ts :=
      takeWhile_append_eq isTokChar (t :: ts) (' ' :: (ds ++ rest)) h2 rfl
    have hdr : ((t :: ts) ++ ' ' :: (ds ++ rest)).drop (t :: ts).length = ' ' :: (ds ++ rest) :=
      drop_len_append (t :: ts) (' ' :: (ds ++ rest))
    have htd : List.takeWhile Char.isDigit (ds ++ rest) = ds :=
      takeWhile_append_eq Char.isDigit ds rest h4 h5
    unfold radMatchAt
    rw [htw, hdr]
    simp only [List.isEmpty_cons, htd]
    cases ds with
    | nil => exact absurd rfl h3
    | cons d dt => simp
  have hcons : (t :: ts) ++ ' ' :: (ds ++ rest) = t :: (ts ++ ' ' :: (ds ++ rest)) := rfl
  rw [hcons] at hAt ⊢
  simp only [radSearch, hAt]

/-! ### Claim theorems -/

/-- C4: collimator-diameter parsing removes the textual `" mm hole"`
tail (for any numeric text not itself ending in a strip-set character)
and multiplies the parsed value by 10⁻³; in particular both
`"5 mm hole"` and `"5mm hole"` parse to 0.005. -/
theorem collim_diameter_parsing :
    (∀ (numStr : String) (c : Char) (v : ℚ), inStrip c = false →
        pyFloat (numStr.data ++ [c]) = some v →
        cdValue (numStr ++ String.mk [c] ++ " mm hole") = .ok (v * qpow10 (-3)))
    ∧ cdValue "5 mm hole" = .ok (1 / 200)
    ∧ cdValue "5mm hole" = .ok (1 / 200) := by
  refine ⟨?_, by decide, by decide⟩
  intro numStr c v hc hv
  unfold cdValue
  have hdata : (numStr ++ String.mk [c] ++ " mm hole").data
      = numStr.data ++ c :: " mm hole".data := by
    simp [String.data_append]
  rw [hdata, rstrip_strip_suffix _ _ hc, hv]

/-- C4 witness: the general clause instantiated at `"10 mm hole"`. -/
theorem collim_diameter_parsing_witness :
    cdValue ("1" ++ String.mk ['0'] ++ " mm hole") = .ok (10 * qpow10 (-3)) :=
  collim_diameter_parsing.1 "1" '0' 10 (by decide) (by decide)

/-- C5: radiator-type parsing captures the digit run that follows a
leading token of letters, digits or hyphens and one space, and
multiplies it by 10⁻⁶; in particular `"Be 750"` gives
750 · 10⁻⁶ = 0.00075 and `"Al-2 300"` gives 300 · 10⁻⁶. -/
theorem radiator_parsing :
    (∀ (tok ds rest : String), tok.data ≠ [] →
        (∀ c ∈ tok.data, isTokChar c = true) → ds.data ≠ [] →
        (∀ c ∈ ds.data, c.isDigit = true) →
        headIs Char.isDigit rest.data = false →
        rtValue (tok ++ " " ++ ds ++ rest)
          = .ok ((digsVal ds.data : ℚ) * qpow10 (-6)))
    ∧ rtValue "Be 750" = .ok (3 / 4000)
    ∧ rtValue "Al-2 300" = .ok (3 / 10000) := by
  refine ⟨?_, by decide, by decide⟩
  intro tok ds rest h1 h2 h3 h4 h5
  unfold rtValue
  have hdata : (tok ++ " " ++ ds ++ rest).data
      = tok.data ++ ' ' :: (ds.data ++ rest.data) := by
    simp [String.data_append]
  rw [hdata, radSearch_head tok.data ds.data rest.data h1 h2 h3 h4 h5]

/-- C5 witness: the general clause instantiated at `"Be 750"`. -/
theorem radiator_parsing_witness :
    rtValue ("Be" ++ " " ++ "750" ++ "") = .ok ((digsVal "750".data : ℚ) * qpow10 (-6)) :=
  radiator_parsing.1 "Be" "750" "" (by decide) (by decide) (by decide) (by decide) (by decide)

/-- C6: beam current, beam energy and coherent-peak energy are each
multiplied by 10⁻³ before being `%g`-serialized, and a beam current of
1000 raw units serializes as `beamCurrent=1`. -/
theorem unit_conversions (row : Row) (h : row.beamCurrent = 1000) :
    beamCurrentStr row = "&beamCurrent=" ++ pyFormatG 6 (row.beamCurrent / 1000)
    ∧ beamEnergyStr row = "&beamEnergy=" ++ pyFormatG 6 (row.beamEnergy / 1000)
    ∧ photonEpeakStr row = "&photonEpeak=" ++ pyFormatG 6 (row.coherentPeak / 1000)
    ∧ beamCurrentStr row = "&beamCurrent=1" := by
  have hq : qpow10 (-3) = 1 / 1000 := by decide
  refine ⟨?_, ?_, ?_, ?_⟩
  · rw [beamCurrentStr, hq, mul_one_div]
  · rw [beamEnergyStr, hq, mul_one_div]
  · rw [photonEpeakStr, hq, mul_one_div]
  · rw [beamCurrentStr, h]
    have h1 : (1000 : ℚ) * qpow10 (-3) = 1 := by decide
    rw [h1]
    decide

/-- C6 witness: the theorem applied to a concrete run row with beam
current 1000. -/
theorem unit_conversions_witness :
    beamCurrentStr { row1 with beamCurrent := 1000 } = "&beamCurrent=1" :=
  (unit_conversions { row1 with beamCurrent := 1000 } rfl).2.2.2

/-- C7: with an empty result set the program terminates without an
exception and the produced file is exactly the header, a single line. -/
theorem empty_result_header_only (cfg : Config) (fetch : String → String) :
    runProgram cfg fetch [] = (headerLine, none)
    ∧ headerLine.data.count '\n' = 1 := by
  constructor
  · rfl
  · decide

/-- C9: the output file name is determined by the run bounds alone via
the fixed `BGRateRCDBValue_<minRun>-<maxRun>.csv` pattern, and because
the file is opened in truncating write mode the final content ignores
whatever the file held before, so identical inputs always reproduce
identical content. -/
theorem output_file_deterministic (minRun maxRun : String) (cfg : Config)
    (fetch : String → String) (rows : List Row) (prior prior' : String) :
    fileName minRun maxRun = "BGRateRCDBValue_" ++ minRun ++ "-" ++ maxRun ++ ".csv"
    ∧ writtenContent prior cfg fetch rows = writtenContent prior' cfg fetch rows
    ∧ writtenContent prior cfg fetch rows = (runProgram cfg fetch rows).1 := by
  refine ⟨rfl, rfl, ?_⟩
  show openTruncate prior ++ (runProgram cfg fetch rows).1 = (runProgram cfg fetch rows).1
  rfl

theorem conditionsStr_numeric (cfg : Config) (row : Row) (hn : cfg.allNumeric = true) :
    conditionsStr cfg row =
      match cdValue row.collimDiameter with
      | .error e => .error e
      | .ok cd =>
        match rtValue row.radiatorType with
        | .error e => .error e
        | .ok rt => .ok (urlQuery cfg row cd rt) := by
  have h := hn
  simp only [Config.allNumeric, Bool.and_eq_true, Bool.not_eq_true'] at h
  obtain ⟨⟨⟨⟨⟨⟨⟨⟨⟨⟨h1, h2⟩, h3⟩, h4⟩, h5⟩, h6⟩, h7⟩, h8⟩, h9⟩, h10⟩, h11⟩ := h
  simp only [conditionsStr, urlQuery, fmtG_of_not_str _ h1, fmtI_of_not_str _ h2,
    fmtG_of_not_str _ h3, fmtG_of_not_str _ h4, fmtG_of_not_str _ h5,
    fmtG_of_not_str _ h6, fmtG_of_not_str _ h7, fmtG_of_not_str _ h8,
    fmtG_of_not_str _ h9, fmtG_of_not_str _ h10, fmtG_of_not_str _ h11]

theorem conditionsStr_typeError (cfg : Config) (row : Row) (hn : cfg.allNumeric = false) :
    conditionsStr cfg row = .error .typeError := by
  cases h1 : cfg.beamEmittance.isStr
  case true => simp only [conditionsStr, fmtG_of_str _ h1]
  cases h2 : cfg.photonNbins.isStr
  case true => simp only [conditionsStr, fmtG_of_not_str _ h1, fmtI_of_str _ h2]
  cases h3 : cfg.photonEmax.isStr
  case true =>
    simp only [conditionsStr, fmtG_of_not_str _ h1, fmtI_of_not_str _ h2, fmtG_of_str _ h3]
  cases h4 : cfg.photonEmin.isStr
  case true =>
    simp only [conditionsStr, fmtG_of_not_str _ h1, fmtI_of_not_str _ h2,
      fmtG_of_not_str _ h3, fmtG_of_str _ h4]
  cases h5 : cfg.collimDistance.isStr
  case true =>
    simp only [conditionsStr, fmtG_of_not_str _ h1, fmtI_of_not_str _ h2,
      fmtG_of_not_str _ h3, fmtG_of_not_str _ h4, fmtG_of_str _ h5]
  cases h6 : cfg.peakElow.isStr
  case true =>
    simp only [conditionsStr, fmtG_of_not_str _ h1, fmtI_of_not_str _ h2,
      fmtG_of_not_str _ h3, fmtG_of_not_str _ h4, fmtG_of_not_str _ h5, fmtG_of_str _ h6]
  cases h7 : cfg.peakEhigh.isStr
  case true =>
    simp only [conditionsStr, fmtG_of_not_str _ h1, fmtI_of_not_str _ h2,
      fmtG_of_not_str _ h3, fmtG_of_not_str _ h4, fmtG_of_not_str _ h5,
      fmtG_of_not_str _ h6, fmtG_of_str _ h7]
  cases h8 : cfg.backElow.isStr
  case true =>
    simp only [conditionsStr, fmtG_of_not_str _ h1, fmtI_of_not_str _ h2,
      fmtG_of_not_str _ h3, fmtG_of_not_str _ h4, fmtG_of_not_str _ h5,
      fmtG_of_not_str _ h6, fmtG_of_not_str _ h7, fmtG_of_str _ h8]
  cases h9 : cfg.backEhigh.isStr
  case true =>
    simp only [conditionsStr, fmtG_of_not_str _ h1, fmtI_of_not_str _ h2,
      fmtG_of_not_str _ h3, fmtG_of_not_str _ h4, fmtG_of_not_str _ h5,
      fmtG_of_not_str _ h6, fmtG_of_not_str _ h7, fmtG_of_not_str _ h8, fmtG_of_str _ h9]
  cases h10 : cfg.endpElow.isStr
  case true =>
    simp only [conditionsStr, fmtG_of_not_str _ h1, fmtI_of_not_str _ h2,
      fmtG_of_not_str _ h3, fmtG_of_not_str _ h4, fmtG_of_not_str _ h5,
      fmtG_of_not_str _ h6, fmtG_of_not_str _ h7, fmtG_of_not_str _ h8,
      fmtG_of_not_str _ h9, fmtG_of_str _ h10]
  cases h11 : cfg.endpEhigh.isStr
  case true =>
    simp only [conditionsStr, fmtG_of_not_str _ h1, fmtI_of_not_str _ h2,
      fmtG_of_not_str _ h3, fmtG_of_not_str _ h4, fmtG_of_not_str _ h5,
      fmtG_of_not_str _ h6, fmtG_of_not_str _ h7, fmtG_of_not_str _ h8,
      fmtG_of_not_str _ h9, fmtG_of_not_str _ h10, fmtG_of_str _ h11]
  rw [Config.allNumeric, h1, h2, h3, h4, h5, h6, h7, h8, h9, h10, h11] at hn
  simp at hn

/-- C2 counterexample: the serialization of the script differs from the
all-`%g` serialization the claim describes.  With `photonNbins`
2000000 the script emits `photonNbins=2000000` (the `%i` conversion of
line 71) where `%g` would emit `photonNbins=2e+06`. -/
theorem conditions_photonNbins_differs :
    conditionsStr { defaultConfig with photonNbins := .int 2000000 } row1
      ≠ conditionsSpecG { defaultConfig with photonNbins := .int 2000000 } row1 := by
  decide

/-- C2 (amended): all converted per-run values and every Configuration
field are serialized into query parameters with the fixed names and
order of line 96, appended to the base endpoint plus the fixed
directive suffix, every value formatted `%g`-style except
`photonNbins`, which uses the `%i` integer conversion. -/
theorem conditions_serialization (cfg : Config) (row : Row) (cd rt : ℚ)
    (hn : cfg.allNumeric = true)
    (hcd : cdValue row.collimDiameter = .ok cd)
    (hrt : rtValue row.radiatorType = .ok rt) :
    conditionsStr cfg row = .ok (urlQuery cfg row cd rt) := by
  rw [conditionsStr_numeric cfg row hn, hcd, hrt]

/-- C2 witness: the amended serialization at the default configuration
and the sample row. -/
theorem conditions_serialization_witness :
    conditionsStr defaultConfig row1
      = .ok (urlQuery defaultConfig row1 (1 / 200) (3 / 4000)) :=
  conditions_serialization defaultConfig row1 (1 / 200) (3 / 4000)
    (by decide) (by decide) (by decide)

/-- C10: argparse keeps any explicitly supplied physics flag as a raw
string; with a string-valued field the percent-formatting of lines
70-80 raises TypeError, so CalcBGRate fails on every row and a
non-empty result set aborts the program right after the header is
written; the defaults escape this only because they are numeric
literals. -/
theorem cli_string_args_type_error :
    (∀ (a : Args) (s : String),
        a.beamEmittance = some s ∨ a.photonNbins = some s ∨ a.photonEmax = some s
          ∨ a.photonEmin = some s ∨ a.collimDistance = some s ∨ a.peakElow = some s
          ∨ a.peakEhigh = some s ∨ a.backElow = some s ∨ a.backEhigh = some s
          ∨ a.endpElow = some s ∨ a.endpEhigh = some s →
        (cfgOfArgs a).allNumeric = false)
    ∧ (∀ (cfg : Config) (fetch : String → String) (row : Row),
        cfg.allNumeric = false → CalcBGRate cfg fetch row = .error .typeError)
    ∧ (∀ (cfg : Config) (fetch : String → String) (r : Row) (rs : List Row),
        cfg.allNumeric = false →
        runProgram cfg fetch (r :: rs) = (headerLine, some .typeError))
    ∧ defaultConfig.allNumeric = true := by
  have hB : ∀ (cfg : Config) (fetch : String → String) (row : Row),
      cfg.allNumeric = false → CalcBGRate cfg fetch row = .error .typeError := by
    intro cfg fetch row hn
    rw [CalcBGRate, conditionsStr_typeError cfg row hn]
  refine ⟨?_, hB, ?_, by decide⟩
  · intro a s h
    rcases h with h | h | h | h | h | h | h | h | h | h | h <;>
      simp [cfgOfArgs, Config.allNumeric, storeArg, h, PyVal.isStr]
  · intro cfg fetch r rs hn
    show (headerLine ++ (runLoop cfg fetch (r :: rs)).1, (runLoop cfg fetch (r :: rs)).2)
      = (headerLine, some .typeError)
    simp only [runLoop, hB cfg fetch r hn, String.append_empty]

/-- C10 witness: supplying `--beamEmittance 1e-8` on the command line
makes CalcBGRate raise TypeError on the sample row. -/
theorem cli_string_args_type_error_witness :
    CalcBGRate (cfgOfArgs { noArgs with beamEmittance := some "1e-8" })
      (fun _ => goodBody) row1 = .error .typeError :=
  cli_string_args_type_error.2.1
    (cfgOfArgs { noArgs with beamEmittance := some "1e-8" })
    (fun _ => goodBody) row1 (by decide)

/-! ### Lemmas about the flux-sum marker search -/

theorem litAt_self (l cs : List Char) : litAt l (l ++ cs) = some cs := by
  induction l with
  | nil => rfl
  | cons a t ih => simp [litAt, ih]

theorem litFluxSearch_skip (pre tail : List Char) (hpre : pre.contains '<' = false) :
    litFluxSearch markerStr.data (pre ++ tail) = litFluxSearch markerStr.data tail := by
  induction pre with
  | nil => rfl
  | cons c cs ih =>
    rw [List.contains_cons] at hpre
    have hc : (c == '<') = false := by
      rcases Bool.or_eq_false_iff.mp hpre with ⟨hl, _⟩
      simpa [BEq.comm] using hl
    have hcs : cs.contains '<' = false := (Bool.or_eq_false_iff.mp hpre).2
    have hmatch : fluxMatchAt markerStr.data (c :: (cs ++ tail)) = none := by
      have hm : markerStr.data = '<' :: "tr><td><b> Endpoint tagged flux sum is ".data := rfl
      unfold fluxMatchAt
      rw [hm]
      simp [litAt, hc]
    show litFluxSearch markerStr.data (c :: (cs ++ tail)) = _
    simp only [litFluxSearch, hmatch]
    exact ih hcs

theorem litFluxSearch_here (rest : List Char)
    (hne : (rest.takeWhile isFluxChar).isEmpty = false) :
    litFluxSearch markerStr.data (markerStr.data ++ rest)
      = some (rest.takeWhile isFluxChar) := by
  have hAt : fluxMatchAt markerStr.data (markerStr.data ++ rest)
      = some (rest.takeWhile isFluxChar) := by
    unfold fluxMatchAt
    rw [litAt_self]
    simp [hne]
  have hm : markerStr.data ++ rest
      = '<' :: ("tr><td><b> Endpoint tagged flux sum is ".data ++ rest) := rfl
  rw [hm] at hAt ⊢
  simp only [litFluxSearch, hAt]

/-- C1 counterexample: a response body containing the bare text
"Endpoint tagged flux sum is 1.23E+05" without the HTML tags of the
full pattern makes `re.search` return None, so CalcBGRate raises
AttributeError instead of returning 1.23E+05 · 10⁻⁹. -/
theorem calc_loose_marker_fails :
    specLooseFlux "Endpoint tagged flux sum is 1.23E+05" = true
    ∧ CalcBGRate defaultConfig (fun _ => "Endpoint tagged flux sum is 1.23E+05") row1
        = .error .attributeError :=
  ⟨by decide, by decide⟩

/-- C1 (amended): for every response body of the form
`pre ++ "<tr><td><b> Endpoint tagged flux sum is " ++ num ++ suffix`,
where the full HTML label does not already start inside `pre`, `num` is
a float literal over the class `[0-9.E+-]` and `suffix` does not begin
with a class character, CalcBGRate extracts that first number and
returns it multiplied by 10⁻⁹. -/
theorem calc_marker_extraction (pre num suffix : String) (v : ℚ)
    (hpre : pre.data.contains '<' = false)
    (hne : num.data ≠ [])
    (hflux : ∀ c ∈ num.data, isFluxChar c = true)
    (hparse : pyFloat num.data = some v)
    (hsuf : headIs isFluxChar suffix.data = false) :
    CalcBGRate defaultConfig (fun _ => pre ++ markerStr ++ num ++ suffix) row1
      = .ok (v * qpow10 (-9)) := by
  have hcond : conditionsStr defaultConfig row1
      = .ok (urlQuery defaultConfig row1 (1 / 200) (3 / 4000)) := by decide
  rw [CalcBGRate, hcond]
  show fluxValue (pre ++ markerStr ++ num ++ suffix) = .ok (v * qpow10 (-9))
  unfold fluxValue
  have hdata : (pre ++ markerStr ++ num ++ suffix).data
      = pre.data ++ (markerStr.data ++ (num.data ++ suffix.data)) := by
    simp [String.data_append]
  have htw : List.takeWhile isFluxChar (num.data ++ suffix.data) = num.data :=
    takeWhile_append_eq isFluxChar num.data suffix.data hflux hsuf
  have hne' : ((num.data ++ suffix.data).takeWhile isFluxChar).isEmpty = false := by
    rw [htw]
    cases h : num.data with
    | nil => exact absurd h hne
    | cons a t => rfl
  rw [hdata, litFluxSearch_skip _ _ hpre, litFluxSearch_here _ hne', htw]
  simp [hparse]

/-- C1 witness: the amended extraction at the body
`"<tr><td><b> Endpoint tagged flux sum is 1.23E+05</b>"`. -/
theorem calc_marker_extraction_witness :
    CalcBGRate defaultConfig (fun _ => "" ++ markerStr ++ "1.23E+05" ++ "</b>") row1
      = .ok (123000 * qpow10 (-9)) :=
  calc_marker_extraction "" "1.23E+05" "</b>" 123000
    (by decide) (by decide) (by decide) (by decide) (by decide)

/-! ### Failure conditions and partial output -/

/-- C3 counterexample: the collimator failure condition is not
"lacks the suffix".  The bare string `"5"` has no `" mm hole"` suffix
yet the row succeeds, while `"abc mm hole"` carries the suffix yet the
row fails with ValueError. -/
theorem calc_failure_not_suffix :
    (specHasMmHoleSuffix "5" = false
      ∧ CalcBGRate defaultConfig (fun _ => goodBody) { row1 with collimDiameter := "5" }
          = .ok (123 / 1000000))
    ∧ (specHasMmHoleSuffix "abc mm hole" = true
      ∧ CalcBGRate defaultConfig (fun _ => goodBody) { row1 with collimDiameter := "abc mm hole" }
          = .error .valueError) :=
  ⟨⟨by decide, by decide⟩, ⟨by decide, by decide⟩⟩

theorem runLoop_before_error (cfg : Config) (fetch : String → String) (bad : Row)
    (post : List Row) (rateOf : Row → ℚ) (e : PyErr)
    (hbad : CalcBGRate cfg fetch bad = .error e) :
    ∀ pre : List Row, (∀ r ∈ pre, CalcBGRate cfg fetch r = .ok (rateOf r)) →
      runLoop cfg fetch (pre ++ bad :: post) = (linesOf rateOf pre, some e) := by
  intro pre
  induction pre with
  | nil =>
    intro _
    simp only [List.nil_append, runLoop, hbad, linesOf]
  | cons r rs ih =>
    intro hpre
    have hr : CalcBGRate cfg fetch r = .ok (rateOf r) := hpre r (by simp)
    have ih' := ih (fun x hx => hpre x (by simp [hx]))
    show runLoop cfg fetch (r :: (rs ++ bad :: post)) = _
    simp only [runLoop, hr, ih', linesOf]

/-- C3 (amended): with a numeric configuration, CalcBGRate raises an
exception exactly when the radiator string lacks the token-space-digits
pattern, or the collimator string is not a float literal after
stripping trailing characters of the set of `" mm hole"` (having or
lacking the suffix itself is not the criterion), or the fetched page
fails the marker extraction; and when a row fails, the file holds the
header plus exactly the lines of the rows processed before it. -/
theorem calc_failure_iff :
    (∀ (cfg : Config) (fetch : String → String) (row : Row), cfg.allNumeric = true →
      ((∃ e, CalcBGRate cfg fetch row = .error e) ↔
        (radSearch row.radiatorType.data = none
          ∨ pyFloat (rstripChars row.collimDiameter.data) = none
          ∨ ∃ conds, conditionsStr cfg row = .ok conds
              ∧ ∃ e, fluxValue (fetch (webAddr ++ conds)) = .error e)))
    ∧ (∀ (cfg : Config) (fetch : String → String) (pre : List Row) (bad : Row)
        (post : List Row) (rateOf : Row → ℚ) (e : PyErr),
        (∀ r ∈ pre, CalcBGRate cfg fetch r = .ok (rateOf r)) →
        CalcBGRate cfg fetch bad = .error e →
        runProgram cfg fetch (pre ++ bad :: post)
          = (headerLine ++ linesOf rateOf pre, some e)) := by
  constructor
  · intro cfg fetch row hn
    have hcs := conditionsStr_numeric cfg row hn
    rcases hcd : pyFloat (rstripChars row.collimDiameter.data) with _ | q
    · have hcdv : cdValue row.collimDiameter = .error .valueError := by
        rw [cdValue, hcd]
      have hcalc : CalcBGRate cfg fetch row = .error .valueError := by
        rw [CalcBGRate, hcs, hcdv]
      exact ⟨fun _ => Or.inr (Or.inl rfl), fun _ => ⟨_, hcalc⟩⟩
    · have hcdv : cdValue row.collimDiameter = .ok (q * qpow10 (-3)) := by
        rw [cdValue, hcd]
      rcases hrt : radSearch row.radiatorType.data with _ | ds
      · have hrtv : rtValue row.radiatorType = .error .attributeError := by
          rw [rtValue, hrt]
        have hcalc : CalcBGRate cfg fetch row = .error .attributeError := by
          rw [CalcBGRate, hcs, hcdv, hrtv]
        exact ⟨fun _ => Or.inl rfl, fun _ => ⟨_, hcalc⟩⟩
      · have hrtv : rtValue row.radiatorType = .ok ((digsVal ds : ℚ) * qpow10 (-6)) := by
          rw [rtValue, hrt]
        have hok : conditionsStr cfg row
            = .ok (urlQuery cfg row (q * qpow10 (-3)) ((digsVal ds : ℚ) * qpow10 (-6))) := by
          rw [hcs, hcdv, hrtv]
        have hcalc : CalcBGRate cfg fetch row
            = fluxValue (fetch (webAddr
                ++ urlQuery cfg row (q * qpow10 (-3)) ((digsVal ds : ℚ) * qpow10 (-6)))) := by
          rw [CalcBGRate, hok]
        generalize hu : urlQuery cfg row (q * qpow10 (-3)) ((digsVal ds : ℚ) * qpow10 (-6)) = u
          at hok hcalc
        constructor
        · rintro ⟨e, he⟩
          rw [hcalc] at he
          exact Or.inr (Or.inr ⟨u, hok, e, he⟩)
        · rintro (h | h | ⟨conds, hc, e, hf⟩)
          · exact Option.noConfusion h
          · exact Option.noConfusion h
          · have hce : u = conds := Except.ok.inj (hok.symm.trans hc)
            exact ⟨e, by rw [hcalc, hce]; exact hf⟩
  · intro cfg fetch pre bad post rateOf e hpre hbad
    show (headerLine ++ (runLoop cfg fetch (pre ++ bad :: post)).1,
        (runLoop cfg fetch (pre ++ bad :: post)).2) = _
    rw [runLoop_before_error cfg fetch bad post rateOf e hbad pre hpre]

/-- C3 witness: instantiating the failure characterization at a row
whose radiator string has no embedded integer. -/
theorem calc_failure_iff_witness :
    radSearch ({ row1 with radiatorType := "Copper" } : Row).radiatorType.data = none
    ∨ pyFloat (rstripChars ({ row1 with radiatorType := "Copper" } : Row).collimDiameter.data) = none
    ∨ ∃ conds, conditionsStr defaultConfig { row1 with radiatorType := "Copper" } = .ok conds
        ∧ ∃ e, fluxValue ((fun _ => goodBody) (webAddr ++ conds)) = .error e :=
  (calc_failure_iff.1 defaultConfig (fun _ => goodBody)
      { row1 with radiatorType := "Copper" } (by decide)).mp
    ⟨.attributeError, by decide⟩

theorem splitComma_ne_nil (l : List Char) : splitComma l ≠ [] := by
  induction l with
  | nil => simp [splitComma]
  | cons c cs ih =>
    unfold splitComma
    cases h : splitComma cs with
    | nil => simp
    | cons f rest =>
      by_cases hc : c = ',' <;> simp [hc]

theorem splitComma_length (l : List Char) : (splitComma l).length = l.count ',' + 1 := by
  induction l with
  | nil => rfl
  | cons c cs ih =>
    unfold splitComma
    cases h : splitComma cs with
    | nil => exact absurd h (splitComma_ne_nil cs)
    | cons f rest =>
      rw [h] at ih
      by_cases hc : c = ','
      · subst hc
        simp [List.count_cons] at ih ⊢
        omega
      · have hc' : ¬(',' = c) := fun hh => hc hh.symm
        simp [hc, hc', List.count_cons] at ih ⊢
        omega

/-- C8: when a row is processed successfully and none of its rendered
fields contains a comma or a newline (the script never escapes them),
the file consists of the header written once plus one data line, two
newline-terminated lines in total, and a CSV consumer splitting the
data line at commas sees exactly 8 fields: the run number, the six
condition fields and the rate. -/
theorem csv_row_shape (cfg : Config) (fetch : String → String) (row : Row) (rate : ℚ)
    (hok : CalcBGRate cfg fetch row = .ok rate)
    (hfields : ∀ s ∈ rowFields row, s.data.count ',' = 0 ∧ s.data.count '\n' = 0)
    (hrc : (pyFormatG 6 rate).data.count ',' = 0)
    (hrn : (pyFormatG 6 rate).data.count '\n' = 0) :
    runProgram cfg fetch [row] = (headerLine ++ rowLine row rate, none)
    ∧ (splitComma (rowBody row rate).data).length = 8
    ∧ (headerLine ++ rowLine row rate).data.count '\n' = 2 := by
  rw [rowFields] at hfields
  simp only [List.forall_mem_cons] at hfields
  obtain ⟨⟨hc1, hn1⟩, ⟨hc2, hn2⟩, ⟨hc3, hn3⟩, ⟨hc4, hn4⟩, ⟨hc5, hn5⟩, ⟨hc6, hn6⟩, ⟨hc7, hn7⟩, -⟩ :=
    hfields
  have hcm : (",".data.count ',') = 1 := by decide
  have hcmn : (",".data.count '\n') = 0 := by decide
  have hnl : ("\n".data.count '\n') = 1 := by decide
  have hhd : headerLine.data.count '\n' = 1 := by decide
  refine ⟨?_, ?_, ?_⟩
  · show (headerLine ++ (runLoop cfg fetch [row]).1, (runLoop cfg fetch [row]).2)
      = (headerLine ++ rowLine row rate, none)
    simp only [runLoop, hok, String.append_empty]
  · rw [splitComma_length, rowBody, rowFields]
    simp only [joinFields, String.data_append, List.count_append, List.append_nil,
      hc1, hc2, hc3, hc4, hc5, hc6, hc7, hrc, hcm]
  · rw [rowLine, rowBody, rowFields]
    simp only [joinFields, String.data_append, List.count_append, List.append_nil,
      hn1, hn2, hn3, hn4, hn5, hn6, hn7, hrn, hcmn, hnl, hhd]

/-- C8 witness: the shape theorem at the sample row, whose rate is
1.23E+05 · 10⁻⁹. -/
theorem csv_row_shape_witness :
    runProgram defaultConfig (fun _ => goodBody) [row1]
      = (headerLine ++ rowLine row1 (123 / 1000000), none)
    ∧ (splitComma (rowBody row1 (123 / 1000000)).data).length = 8
    ∧ (headerLine ++ rowLine row1 (123 / 1000000)).data.count '\n' = 2 :=
  csv_row_shape defaultConfig (fun _ => goodBody) row1 (123 / 1000000)
    (by decide) (by decide) (by decide) (by decide)

end BGRate
